import Mathlib

/-!
Verification development for `budding.py` (Budding, an ENA fastq validator).

The Python source is shallowly embedded below.  Strings manipulated by the
code (filenames, run accessions, cache lines, HTTP response bodies) are
modelled as `List Char`, so that Python's `str.split`, `str.replace` and
`int(...)` have direct, executable counterparts.  Remote HTTP traffic and the
filesystem are modelled as explicit environment parameters; the embedding of
each remote-facing function additionally returns instrumentation (which
requests were issued, how many attempts were made) so that retry and caching
behaviour is provable.
-/

set_option autoImplicit false

namespace Budding

/-- Python strings, as character lists. -/
abbrev Str := List Char

/-- The exceptions the embedded code can raise.  Each constructor corresponds
to one `raise` site (or built-in exception) in `budding.py`. -/
inductive PyError
  /-- Python `KeyError`: missing dict key (`md5_dic[ass]`, `metadata['run']`). -/
  | keyError
  /-- Python `IndexError`: list index out of range (`split(...)[1]`, `md5s[dig-1]`). -/
  | indexError
  /-- Python `ValueError`: `int(...)` on a non-numeric string (line 217). -/
  | valueError
  /-- Python `FileNotFoundError`: `open(md5_cache_dir)` with no cache file (line 148). -/
  | fileNotFoundError
  /-- an exception raised by `requests.get` itself, propagating uncaught. -/
  | requestsException
  /-- The `Exception("HTTP Failure when requesting search from bioproject: ...")` (line 106). -/
  | httpFailure
  /-- The `Exception("No IdList element found in response: ...")` (line 115). -/
  | noIdList
  /-- The `Exception("No WebEnv element found in response: ...")` (line 125). -/
  | noWebEnv
  /-- The `Exception("Error when fetching metadata: ...")` (line 77). -/
  | remoteError
  /-- The `Exception("Failed to ... after 3 attempts")` (line 45). -/
  | retriesExhausted
  deriving DecidableEq

/-- Python `s.split(c)` for a one-character separator: splits at every
occurrence, never collapsing, so `"".split(c) = [""]`. -/
def splitOnChar (c : Char) : List Char → List (List Char)
  | [] => [[]]
  | x :: xs =>
    let r := splitOnChar c xs
    if x = c then [] :: r else (x :: r.headI) :: r.tail

/-- Python `c.join(parts)` for a one-character separator. -/
def intercalateChar (c : Char) : List (List Char) → List Char
  | [] => []
  | [x] => x
  | x :: y :: rest => x ++ c :: intercalateChar c (y :: rest)

/-- Python list indexing `xs[i]`: negative indices count from the end;
`none` models an `IndexError`. -/
def pyIndex {α : Type} (xs : List α) (i : Int) : Option α :=
  let j : Int := if i < 0 then (xs.length : Int) + i else i
  if j < 0 then none else xs[j.toNat]?

/-- Whitespace stripped by Python's `int(...)`. -/
def isPySpace (c : Char) : Bool := c = ' ' || c = '\t' || c = '\n' || c = '\r'

/-- Value of a nonempty all-digit string; `none` otherwise. -/
def digitsToNat (ds : List Char) : Option Nat :=
  if ds.isEmpty then none
  else if ds.all Char.isDigit then
    some (ds.foldl (fun a c => a * 10 + (c.toNat - '0'.toNat)) 0)
  else none

/-- Python `int(s)`: strip whitespace, optional sign, decimal digits;
`none` models a `ValueError`. -/
def pyToInt (s : Str) : Option Int :=
  let t := ((s.dropWhile isPySpace).reverse.dropWhile isPySpace).reverse
  match t with
  | '-' :: ds => (digitsToNat ds).map (fun n => -(n : Int))
  | '+' :: ds => (digitsToNat ds).map (fun n => (n : Int))
  | ds => (digitsToNat ds).map (fun n => (n : Int))

/-- Python dict lookup where the dict was built by successive assignments
recorded in an association list: the LAST assignment to a key wins. -/
def lookupDict {α : Type} : List (Str × α) → Str → Option α
  | [], _ => none
  | (k, v) :: rest, key =>
    match lookupDict rest key with
    | some v' => some v'
    | none => if k = key then some v else none

/-- Python `str.replace("\n", "")`: drop every newline character (line 221). -/
def stripNl (s : Str) : Str := s.filter (fun ch => decide (ch ≠ '\n'))

/-- Lines 216-217 of `validate`:
`ass = fastq.split("_")[0]` and `dig = int(fastq.split(".")[0].split("_")[1])`.
`split(...)[0]` never raises (a split result is nonempty), `[1]` raises
`IndexError` when the pre-period part holds no underscore, and `int(...)`
raises `ValueError` when the segment is not numeric. -/
def parseFastqName (name : Str) : Except PyError (Str × Int) :=
  let ass := (splitOnChar '_' name).headI
  let segs := splitOnChar '_' ((splitOnChar '.' name).headI)
  match pyIndex segs 1 with
  | none => .error .indexError
  | some s2 =>
    match pyToInt s2 with
    | none => .error .valueError
    | some dig => .ok (ass, dig)

/-- Loading one cache line (lines 151-152):
key `line.split('\t')[0]`, value `line.split('\t')[1].split(';')`.
A line without a tab raises `IndexError` at the `[1]`. -/
def parseCacheLine (line : Str) : Except PyError (Str × List Str) :=
  match splitOnChar '\t' line with
  | k :: v :: _ => .ok (k, splitOnChar ';' v)
  | _ => .error .indexError

/-- The bytes appended to the cache for an entry `(ass, md5s)` (lines 172-174):
the raw second line of the ENA file report — run accession, a tab, the
semicolon-joined checksums — followed by the `'\n'` added by `out.write`. -/
def writeCacheLine (ass : Str) (md5s : List Str) : Str :=
  ass ++ '\t' :: (intercalateChar ';' md5s ++ ['\n'])

/-- Outcome of one attempt of a `requests.get`/`requests.post` call:
a parsed success response, a response with `ok == False`, or a raised
exception. -/
inductive CallOutcome (α : Type)
  | success (v : α)
  | httpFail
  | exn
  deriving DecidableEq

/-- The parsed esearch response (lines 107-125): the `IdList` children and
the `WebEnv` text, each `none` when the element is absent. -/
structure SearchResp where
  idList : Option (List Str)
  webenv : Option Str
  deriving DecidableEq

/-- The parsed efetch response (lines 65-88): whether an `ERROR` element is
present, and for each `EXPERIMENT_PACKAGE` the `accession` attributes of its
`RUN_SET/RUN` children, in document order. -/
structure EfetchResp where
  errorNode : Bool
  pkgs : List (List Str)
  deriving DecidableEq

/-- Embedding of `_retry_request` (lines 20-45), instrumented: `f i` is the outcome of the
`i`-th issuance of the wrapped call.  Both a raised exception and a non-OK
response lead to a sleep and another loop iteration; the fuel argument is the
remaining iterations of `range(num_retries)`.  Returns the result together
with the number of attempts actually made. -/
def retryAux {α : Type} (f : Nat → CallOutcome α) : Nat → Nat → Except PyError α × Nat
  | _, 0 => (.error .retriesExhausted, 0)
  | start, fuel + 1 =>
    match f start with
    | .success v => (.ok v, 1)
    | _ =>
      let q := retryAux f (start + 1) fuel
      (q.1, q.2 + 1)

/-- Embedding of `_retry_request` with `num_retries = 3`, starting at attempt 0. -/
def retryRequestCounted {α : Type} (f : Nat → CallOutcome α) : Except PyError α × Nat :=
  retryAux f 0 3

/-- The rows contributed by one `EXPERIMENT_PACKAGE` (lines 82-88).  The
source creates ONE `collections.OrderedDict` `d` per package, then for every
kept `RUN` assigns `d['run']` and appends `d` — the same object — to
`data_frames`.  When the rows are read (at `pd.DataFrame(data_frames)`),
every appended alias shows the LAST assignment, so a package with `k` kept
runs contributes `k` copies of its last kept run accession. -/
def pkgContribution (accessions : Option (List Str)) (runs : List Str) : List Str :=
  let kept := match accessions with
    | none => runs
    | some s => runs.filter (fun r => decide (r ∈ s))
  match kept.getLast? with
  | none => []
  | some l => List.replicate kept.length l

/-- The `run` column of the frame built by `efetch_accession_from_ids` from
the parsed packages (lines 80-90). -/
def efetchRows (accessions : Option (List Str)) (pkgs : List (List Str)) : List Str :=
  (pkgs.map (pkgContribution accessions)).flatten

/-- Embedding of `efetch_accession_from_ids` (lines 47-90): the efetch call goes through
`_retry_request`; on a retrieved response, an `ERROR` element raises (line 77),
otherwise the rows are extracted.  (The `if not res.ok` re-check at line 63 is
unreachable: `_retry_request` only returns OK responses.)  Returns the result
with the number of efetch attempts. -/
def efetchAccessionFromIds (ef : Nat → CallOutcome EfetchResp)
    (accessions : Option (List Str)) : Except PyError (List Str) × Nat :=
  let q := retryRequestCounted ef
  match q.1 with
  | .error e => (.error e, q.2)
  | .ok resp =>
    if resp.errorNode then (.error .remoteError, q.2)
    else (.ok (efetchRows accessions resp.pkgs), q.2)

/-- The external world of one invocation: the esearch endpoint (`search i` is
the outcome of its `i`-th issuance), the efetch endpoint, the persistent
cache file (`none` = file absent; otherwise the lines as `readlines` returns
them, trailing newlines kept), and the ENA filereport endpoint (`ena base` is
the full `wget` stdout for a base accession). -/
structure Env where
  search : Nat → CallOutcome SearchResp
  efetch : Nat → CallOutcome EfetchResp
  cacheFile : Option (List Str)
  ena : Str → Str

/-- Embedding of `fetch_runs_from_bioproject` (lines 92-129).  The esearch request is made
with a bare `requests.get` — NOT through `_retry_request` — so it is issued
exactly once; an exception propagates and a non-OK response raises at
line 106.  Missing `IdList`/`WebEnv` raise; then the efetch step runs, and
`metadata['run']` raises `KeyError` when the frame has no rows.  Returns
`(result, esearch attempts, efetch attempts)`. -/
def fetchRunsFromBioproject (env : Env) : Except PyError (List Str) × Nat × Nat :=
  match env.search 0 with
  | .exn => (.error .requestsException, 1, 0)
  | .httpFail => (.error .httpFailure, 1, 0)
  | .success r =>
    match r.idList with
    | none => (.error .noIdList, 1, 0)
    | some _ =>
      match r.webenv with
      | none => (.error .noWebEnv, 1, 0)
      | some _ =>
        let q := efetchAccessionFromIds env.efetch none
        match q.1 with
        | .error e => (.error e, 1, q.2)
        | .ok rows =>
          (if rows.isEmpty then .error .keyError else .ok rows, 1, q.2)

/-- The second line of the filereport stdout, parsed (lines 167-170):
`stdout.split('\n')[1]` (IndexError when absent), then tab fields `[0]`/`[1]`
(IndexError when the tab is absent), the checksum field split on `';'`.
Returns `(response run accession, checksums, raw second line)`. -/
def parseEnaResponse (raw : Str) : Except PyError (Str × List Str × Str) :=
  match pyIndex (splitOnChar '\n' raw) 1 with
  | none => .error .indexError
  | some second =>
    match pyIndex (splitOnChar '\t' second) 0, pyIndex (splitOnChar '\t' second) 1 with
    | some ass, some md5f => .ok (ass, splitOnChar ';' md5f, second)
    | _, _ => .error .indexError

/-- The per-run query loop of `get_md5_from_ena` (lines 160-170 / 178-189),
instrumented: processes the pending run identifiers in order, querying the
filereport endpoint for `fastq.split("_")[0]`, extending the dict (keyed by
the accession THE RESPONSE reports) and `res_lis`.  The second component is
the list of run identifiers for which a query was actually issued; a parse
failure aborts the loop (and hence the enclosing function). -/
def queryLoop (ena : Str → Str) :
    List (Str × List Str) → List Str → List Str →
    Except PyError (List (Str × List Str) × List Str) × List Str
  | dic, resLis, [] => (.ok (dic, resLis), [])
  | dic, resLis, fastq :: rest =>
    match parseEnaResponse (ena ((splitOnChar '_' fastq).headI)) with
    | .error e => (.error e, [fastq])
    | .ok (ass, md5s, second) =>
      let q := queryLoop ena (dic ++ [(ass, md5s)]) (resLis ++ [second]) rest
      (q.1, fastq :: q.2)

/-- The cache-loading loop (lines 148-152): each line is parsed and assigned
into `md5_dic` in file order; the first malformed line raises. -/
def loadCacheLines : List Str → Except PyError (List (Str × List Str))
  | [] => .ok []
  | line :: rest =>
    match parseCacheLine line with
    | .error e => .error e
    | .ok kv =>
      match loadCacheLines rest with
      | .error e => .error e
      | .ok d => .ok (kv :: d)

/-- Drop the `res_lis` component of a finished query loop. -/
def dropResLis : Except PyError (List (Str × List Str) × List Str) →
    Except PyError (List (Str × List Str))
  | .error e => .error e
  | .ok (d, _) => .ok d

/-- Embedding of `list(set(fastq_lis) - set(cache_fastq_lis))` (line 154): the distinct
requested run identifiers that are not cache keys.  (Python's set order is
arbitrary; only membership and emptiness are relied on below.) -/
def needQueryList (fastqLis : List Str) (keys : List Str) : List Str :=
  fastqLis.dedup.filter (fun r => decide (r ∉ keys))

/-- The checksum-catalog part of `get_md5_from_ena` (lines 144-197), taking
the already-resolved run list.  With `cache = true`: `open(md5_cache_dir)`
raises `FileNotFoundError` when the file is absent; otherwise the cache is
loaded, the set difference computed, and only the runs outside the cache are
queried (none at all when the difference is empty).  With `cache = false`
every requested run is queried.  The second component is the list of run
identifiers for which an ENA query was issued. -/
def getMd5Catalog (env : Env) (fastqLis : List Str) (cache : Bool) :
    Except PyError (List (Str × List Str)) × List Str :=
  if cache then
    match env.cacheFile with
    | none => (.error .fileNotFoundError, [])
    | some lines =>
      match loadCacheLines lines with
      | .error e => (.error e, [])
      | .ok dic =>
        let needQuery := needQueryList fastqLis (dic.map Prod.fst)
        if needQuery.isEmpty then (.ok dic, [])
        else
          let q := queryLoop env.ena dic [] needQuery
          (dropResLis q.1, q.2)
  else
    let q := queryLoop env.ena [] [] fastqLis
    (dropResLis q.1, q.2)

/-- The per-file body of `validate` (lines 215-227) for one directory entry,
given the file's actual md5 (`check_md5sum` abstracted to the hash of the
on-disk content): parse the name, look the base accession up in the dict
(`KeyError` when absent), index the checksum list with `dig - 1`
(`IndexError` when out of range), strip newlines from the expected value and
compare.  `true` = match. -/
def validateFile (dic : List (Str × List Str)) (name actual : Str) :
    Except PyError Bool :=
  match parseFastqName name with
  | .error e => .error e
  | .ok (ass, dig) =>
    match lookupDict dic ass with
    | none => .error .keyError
    | some md5s =>
      match pyIndex md5s (dig - 1) with
      | none => .error .indexError
      | some expected => .ok (decide (actual = stripNl expected))

/-- The `for fastq in fastq_lis` loop of `validate` (lines 215-227) over the
directory listing, each entry paired with its actual md5; the first raised
exception aborts the loop.  Returns `fail_cnt`. -/
def validateFiles (dic : List (Str × List Str)) :
    List (Str × Str) → Except PyError Nat
  | [] => .ok 0
  | (name, actual) :: rest =>
    match validateFile dic name actual with
    | .error e => .error e
    | .ok b =>
      match validateFiles dic rest with
      | .error e => .error e
      | .ok c => .ok ((if b then 0 else 1) + c)

/-- Embedding of `validate` (lines 208-230) end to end: resolve runs, build the catalog
with the default `cache = True`, then check the directory's files. -/
def validateRun (env : Env) (dirFiles : List (Str × Str)) : Except PyError Nat :=
  match fetchRunsFromBioproject env with
  | (.error e, _, _) => .error e
  | (.ok runs, _, _) =>
    match (getMd5Catalog env runs true).1 with
    | .error e => .error e
    | .ok dic => validateFiles dic dirFiles

/-- The argument pairing of `main` (line 243): `zip(args.accession, args.dir)`
truncates to the shorter list. -/
def mainPairs (accs dirs : List Str) : List (Str × Str) := accs.zip dirs

/-- The `for study in zip(...)` loop of `main` (lines 243-244), instrumented:
`outcome p` is what `validate` does on pair `p`.  There is no `try/except`,
so the first raised exception propagates and ends the loop.  The second
component lists the pairs on which `validate` was actually invoked. -/
def mainLoop {α : Type} (outcome : α → Except PyError Nat) :
    List α → Except PyError (List Nat) × List α
  | [] => (.ok [], [])
  | p :: rest =>
    match outcome p with
    | .error e => (.error e, [p])
    | .ok n =>
      let q := mainLoop outcome rest
      (match q.1 with
       | .error e => .error e
       | .ok ns => .ok (n :: ns), p :: q.2)

/-- Modelled from the spec (§4.4 step 2, absent from the code as a named
check): a filename fits the `<baseAccession>_<fileIndex>.<ext...>` convention
when a nonempty, period-free base accession precedes the first underscore,
the text between that underscore and the first following period is a
nonempty digit string (the 1-based file index), and a period with an
extension follows. -/
def fitsConventionSpec (name : Str) : Bool :=
  let base := name.takeWhile (fun c => decide (c ≠ '_'))
  let afterU := (name.dropWhile (fun c => decide (c ≠ '_'))).tail
  let idx := afterU.takeWhile (fun c => decide (c ≠ '.'))
  decide ('_' ∈ name) && !base.isEmpty && decide ('.' ∉ base) &&
    decide ('.' ∈ afterU) && !idx.isEmpty && idx.all Char.isDigit

/-- Whether an `Except` result is a success (i.e. the embedded code returned
instead of raising). -/
def exceptIsOk {ε α : Type} : Except ε α → Bool
  | .ok _ => true
  | .error _ => false

/-- Fixture: a world whose esearch endpoint raises on its first issuance but
would answer successfully from the second issuance on. -/
def c4SearchTransientEnv : Env :=
  ⟨fun i => match i with
    | 0 => .exn
    | _ => .success ⟨some [("7").toList], some ("W").toList⟩,
   fun _ => .success ⟨false, [[("SRR9").toList]]⟩,
   none,
   fun _ => ("").toList⟩

/-- Fixture: a world whose esearch endpoint always succeeds and whose efetch
endpoint raises on its first issuance and succeeds from the second on. -/
def c4FetchTransientEnv : Env :=
  ⟨fun _ => .success ⟨some [("7").toList], some ("W").toList⟩,
   fun i => match i with
    | 0 => .exn
    | _ => .success ⟨false, [[("SRR9").toList]]⟩,
   none,
   fun _ => ("").toList⟩

/-- Fixture: a per-pair `validate` outcome that raises on the pair
`(PRJ1, dir1)` and succeeds with zero mismatches on every other pair. -/
def c5Outcome : Str × Str → Except PyError Nat :=
  fun q => if q = (("PRJ1").toList, ("dir1").toList)
    then .error .requestsException else .ok 0

/-- Fixture: a world whose cache file holds one line for run `SRR1` with two
checksums; the remote endpoints are never needed. -/
def c6Env : Env :=
  ⟨fun _ => .exn, fun _ => .exn,
   some [("SRR1\tabc;def\n").toList],
   fun _ => ("").toList⟩

/-- Fixture: a per-pair `validate` outcome that always succeeds. -/
def c10Outcome : Str × Str → Except PyError Nat := fun _ => .ok 0

/-- A split result is never the empty list. -/
theorem splitOnChar_ne_nil (c : Char) (l : List Char) : splitOnChar c l ≠ [] := by
  cases l with
  | nil => simp [splitOnChar]
  | cons x xs => simp only [splitOnChar]; split <;> simp

/-- Splitting a string that does not contain the separator. -/
theorem splitOnChar_no_sep {c : Char} : ∀ {l : List Char}, c ∉ l → splitOnChar c l = [l] := by
  intro l
  induction l with
  | nil => intro _; rfl
  | cons x xs ih =>
    intro h
    rw [List.mem_cons, not_or] at h
    have hx : ¬ x = c := fun hh => h.1 hh.symm
    simp [splitOnChar, hx, ih h.2]

/-- Splitting at the first separator occurrence. -/
theorem splitOnChar_sep_append {c : Char} :
    ∀ {l : List Char} (ys : List Char), c ∉ l →
    splitOnChar c (l ++ c :: ys) = l :: splitOnChar c ys := by
  intro l
  induction l with
  | nil => intro ys _; simp [splitOnChar]
  | cons x xs ih =>
    intro ys h
    rw [List.mem_cons, not_or] at h
    have hx : ¬ x = c := fun hh => h.1 hh.symm
    simp [splitOnChar, hx, ih ys h.2]

/-- Unfolding a join over a nonempty tail. -/
theorem intercalateChar_cons {c : Char} (x : List Char) {l : List (List Char)}
    (h : l ≠ []) : intercalateChar c (x :: l) = x ++ c :: intercalateChar c l := by
  cases l with
  | nil => exact absurd rfl h
  | cons y rest => rfl

/-- Every character of a join is the separator or comes from a part. -/
theorem mem_intercalateChar {c x : Char} : ∀ {parts : List (List Char)},
    x ∈ intercalateChar c parts → x = c ∨ ∃ p, p ∈ parts ∧ x ∈ p
  | [], h => absurd h (List.not_mem_nil x)
  | [p], h => Or.inr ⟨p, by simp, h⟩
  | p :: q :: rest, h => by
    rw [intercalateChar_cons p (by simp)] at h
    rcases List.mem_append.mp h with h1 | h2
    · exact Or.inr ⟨p, by simp, h1⟩
    · rcases List.mem_cons.mp h2 with h3 | h3
      · exact Or.inl h3
      · rcases mem_intercalateChar h3 with h4 | ⟨r, hr, hx⟩
        · exact Or.inl h4
        · exact Or.inr ⟨r, List.mem_cons_of_mem _ hr, hx⟩

/-- Splitting a join recovers the parts when no part holds the separator. -/
theorem splitOnChar_intercalate {c : Char} : ∀ {parts : List (List Char)},
    parts ≠ [] → (∀ p ∈ parts, c ∉ p) →
    splitOnChar c (intercalateChar c parts) = parts
  | [], hne, _ => absurd rfl hne
  | [p], _, h => splitOnChar_no_sep (h p (by simp))
  | p :: q :: rest, _, h => by
    rw [intercalateChar_cons p (by simp), splitOnChar_sep_append _ (h p (by simp))]
    rw [splitOnChar_intercalate (by simp) (fun r hr => h r (List.mem_cons_of_mem _ hr))]

/-- Appending to a join lands on its final part. -/
theorem intercalateChar_append_last (c : Char) :
    ∀ (parts : List (List Char)) (hne : parts ≠ []) (t : List Char),
    intercalateChar c parts ++ t =
      intercalateChar c (parts.dropLast ++ [parts.getLast hne ++ t])
  | [], hne, _ => absurd rfl hne
  | [x], _, t => rfl
  | x :: y :: rest, _, t => by
    have ih := intercalateChar_append_last c (y :: rest) (by simp) t
    show (x ++ c :: intercalateChar c (y :: rest)) ++ t = _
    rw [List.append_assoc, List.cons_append, ih]
    have hne2 : (y :: rest).dropLast ++ [(y :: rest).getLast (by simp) ++ t] ≠ [] := by simp
    rw [show ((x :: y :: rest).dropLast ++
          [(x :: y :: rest).getLast (by simp) ++ t] : List (List Char)) =
        x :: ((y :: rest).dropLast ++ [(y :: rest).getLast (by simp) ++ t]) from rfl]
    rw [intercalateChar_cons x hne2]

/-- Membership survives `dropLast`. -/
theorem mem_of_mem_dropLast {α : Type} {a : α} : ∀ {l : List α}, a ∈ l.dropLast → a ∈ l
  | [], h => absurd h (List.not_mem_nil a)
  | [x], h => by simp at h
  | x :: y :: rest, h => by
    rcases List.mem_cons.mp h with h1 | h2
    · exact h1 ▸ List.mem_cons_self _ _
    · exact List.mem_cons_of_mem _ (mem_of_mem_dropLast h2)

/-- One failed attempt inside `_retry_request` recurses with one more attempt
recorded. -/
theorem retryAux_fail_step {α : Type} (f : Nat → CallOutcome α) (i fuel : Nat)
    (h : ∀ v, f i ≠ .success v) :
    retryAux f i (fuel + 1) = ((retryAux f (i + 1) fuel).1, (retryAux f (i + 1) fuel).2 + 1) := by
  cases hf : f i with
  | success v => exact absurd hf (h v)
  | httpFail => simp [retryAux, hf]
  | exn => simp [retryAux, hf]

/-- A successful attempt inside `_retry_request` returns at once. -/
theorem retryAux_success_step {α : Type} (f : Nat → CallOutcome α) (i fuel : Nat) (v : α)
    (h : f i = .success v) : retryAux f i (fuel + 1) = (.ok v, 1) := by
  simp [retryAux, h]

/-- Every run identifier the query loop touched was pending. -/
theorem queryLoop_performed_mem {ena : Str → Str} :
    ∀ (l : List Str) (dic : List (Str × List Str)) (resLis : List Str) (q : Str),
    q ∈ (queryLoop ena dic resLis l).2 → q ∈ l
  | [], _, _, q, h => absurd h (List.not_mem_nil q)
  | fastq :: rest, dic, resLis, q, h => by
    revert h
    simp only [queryLoop]
    cases hp : parseEnaResponse (ena ((splitOnChar '_' fastq).headI)) with
    | error e =>
      intro h
      simp at h
      exact h ▸ List.mem_cons_self _ _
    | ok t =>
      obtain ⟨ass, md5s, second⟩ := t
      intro h
      rcases List.mem_cons.mp h with h1 | h2
      · exact h1 ▸ List.mem_cons_self _ _
      · exact List.mem_cons_of_mem _ (queryLoop_performed_mem rest _ _ q h2)

/-- A `main` loop whose pairs all validate cleanly processes every pair and
returns normally. -/
theorem mainLoop_all_ok {α : Type} (outcome : α → Except PyError Nat) :
    ∀ (l : List α), (∀ p ∈ l, ∃ n, outcome p = .ok n) →
    (mainLoop outcome l).2 = l ∧ ∃ ns, (mainLoop outcome l).1 = .ok ns
  | [], _ => ⟨rfl, ⟨[], rfl⟩⟩
  | p :: rest, h => by
    obtain ⟨n, hn⟩ := h p (List.mem_cons_self p rest)
    obtain ⟨h2, ns, hns⟩ :=
      mainLoop_all_ok outcome rest (fun q hq => h q (List.mem_cons_of_mem _ hq))
    refine ⟨?_, ⟨n :: ns, ?_⟩⟩ <;> simp [mainLoop, hn, h2, hns]

/-- Positional access into a zip. -/
theorem zip_getElem? {α β : Type} : ∀ (as : List α) (bs : List β) (i : Nat),
    (as.zip bs)[i]? = (as[i]?).bind (fun a => (bs[i]?).map (fun b => (a, b)))
  | [], _, _ => by simp
  | _ :: _, [], i => by simp
  | _ :: _, _ :: _, 0 => by simp
  | a :: as, b :: bs, i + 1 => by
    simp only [List.zip_cons_cons, List.getElem?_cons_succ]
    exact zip_getElem? as bs i

/-- C1 (code bug): a fetch-response record with two nested runs does NOT keep
both run accessions — the shared per-package dict makes every row of the
record show the last run's accession, so the first accession is lost.  Here a
single `EXPERIMENT_PACKAGE` with runs SRR10489833 and SRR10489834 (no filter)
yields the rows [SRR10489834, SRR10489834]. -/
theorem c1_multirun_rows_collapse :
    efetchRows none [[("SRR10489833").toList, ("SRR10489834").toList]] =
      [("SRR10489834").toList, ("SRR10489834").toList]
    ∧ ("SRR10489833").toList ∉
        efetchRows none [[("SRR10489833").toList, ("SRR10489834").toList]] :=
  ⟨rfl, by decide⟩

/-- C2 (counterexample): a directory file `SRR1_1.fq` whose base accession has
no catalog entry makes `validate` raise `KeyError` — it does not report a
mismatch and continue. -/
theorem c2_counterexample :
    validateFiles [] [(("SRR1_1.fq").toList, ("x").toList)] = .error .keyError
    ∧ exceptIsOk (validateFiles [] [(("SRR1_1.fq").toList, ("x").toList)]) = false :=
  ⟨rfl, rfl⟩

/-- C2 (amended): when a file name parses to `(ass, dig)` and the catalog has
no entry for `ass`, `validate` raises `KeyError`; when the entry exists but
index `dig - 1` is out of range of the checksum list, it raises `IndexError`.
Either exception aborts the whole run at that file. -/
theorem c2_missing_or_oob_raises (dic : List (Str × List Str)) (name actual : Str)
    (rest : List (Str × Str)) (ass : Str) (dig : Int)
    (hp : parseFastqName name = .ok (ass, dig)) :
    (lookupDict dic ass = none →
      validateFiles dic ((name, actual) :: rest) = .error .keyError)
    ∧ (∀ md5s, lookupDict dic ass = some md5s → pyIndex md5s (dig - 1) = none →
      validateFiles dic ((name, actual) :: rest) = .error .indexError) := by
  constructor
  · intro hl
    simp [validateFiles, validateFile, hp, hl]
  · intro md5s hl hi
    simp [validateFiles, validateFile, hp, hl, hi]

/-- C2 witness: a concrete missing-entry file raising `KeyError` and a
concrete out-of-range index raising `IndexError`. -/
theorem c2_missing_or_oob_raises_witness :
    validateFiles [] [(("SRR1_2.fq").toList, ("x").toList)] = .error .keyError
    ∧ validateFiles [(("SRR1").toList, [("abc").toList])]
        [(("SRR1_2.fq").toList, ("x").toList)] = .error .indexError :=
  ⟨(c2_missing_or_oob_raises [] (("SRR1_2.fq").toList) (("x").toList) []
      (("SRR1").toList) 2 rfl).1 (by decide),
   (c2_missing_or_oob_raises [(("SRR1").toList, [("abc").toList])]
      (("SRR1_2.fq").toList) (("x").toList) [] (("SRR1").toList) 2 rfl).2
      [("abc").toList] (by decide) (by decide)⟩

/-- C3 (counterexample): writing the entry (SRR000001, [abc, def]) in the
cache line format and reloading it does NOT reproduce the checksum sequence:
the reloaded final checksum carries the written trailing newline. -/
theorem c3_counterexample :
    parseCacheLine (writeCacheLine (("SRR000001").toList)
        [("abc").toList, ("def").toList]) =
      .ok (("SRR000001").toList, [("abc").toList, ("def").toList ++ ['\n']])
    ∧ [("abc").toList, ("def").toList ++ ['\n']] ≠ [("abc").toList, ("def").toList] :=
  ⟨rfl, by decide⟩

/-- C3 (amended): for every entry with a tab-free run identifier and a
nonempty list of checksums free of tab, semicolon and newline characters,
writing then reloading reproduces the run identifier and the ordered
checksum sequence EXCEPT that the final checksum gains one trailing newline;
applying the validator's newline stripping recovers the sequence exactly. -/
theorem c3_roundtrip_trailing_newline (ass : Str) (md5s : List Str)
    (hne : md5s ≠ []) (hass : '\t' ∉ ass)
    (hm : ∀ m ∈ md5s, '\t' ∉ m ∧ ';' ∉ m ∧ '\n' ∉ m) :
    parseCacheLine (writeCacheLine ass md5s) =
      .ok (ass, md5s.dropLast ++ [md5s.getLast hne ++ ['\n']])
    ∧ (md5s.dropLast ++ [md5s.getLast hne ++ ['\n']]).map stripNl = md5s := by
  have hbody : '\t' ∉ intercalateChar ';' md5s ++ ['\n'] := by
    intro hmem
    rcases List.mem_append.mp hmem with h1 | h2
    · rcases mem_intercalateChar h1 with h3 | ⟨p, hp, hx⟩
      · exact absurd h3 (by decide)
      · exact (hm p hp).1 hx
    · simp at h2
  have hparts : ∀ p ∈ md5s.dropLast ++ [md5s.getLast hne ++ ['\n']], ';' ∉ p := by
    intro p hp
    rcases List.mem_append.mp hp with h1 | h2
    · exact (hm p (mem_of_mem_dropLast h1)).2.1
    · rw [List.mem_singleton] at h2
      subst h2
      intro hmem
      rcases List.mem_append.mp hmem with h3 | h4
      · exact (hm _ (List.getLast_mem hne)).2.1 h3
      · simp at h4
  constructor
  · unfold writeCacheLine parseCacheLine
    rw [splitOnChar_sep_append _ hass, splitOnChar_no_sep hbody]
    show Except.ok (ass, splitOnChar ';' (intercalateChar ';' md5s ++ ['\n'])) = _
    rw [intercalateChar_append_last ';' md5s hne ['\n']]
    rw [splitOnChar_intercalate (by simp) hparts]
  · rw [List.map_append]
    have h1 : (md5s.dropLast).map stripNl = md5s.dropLast := by
      rw [List.map_congr_left (fun p hp => ?_), List.map_id]
      show stripNl p = p
      exact List.filter_eq_self.mpr
        (fun x hx => by
          have := (hm p (mem_of_mem_dropLast hp)).2.2
          simp only [decide_eq_true_eq]
          intro hh
          exact this (hh ▸ hx))
    have h2 : stripNl (md5s.getLast hne ++ ['\n']) = md5s.getLast hne := by
      unfold stripNl
      rw [List.filter_append]
      have h3 : (md5s.getLast hne).filter (fun ch => decide (ch ≠ '\n')) =
          md5s.getLast hne :=
        List.filter_eq_self.mpr
          (fun x hx => by
            have := (hm _ (List.getLast_mem hne)).2.2
            simp only [decide_eq_true_eq]
            intro hh
            exact this (hh ▸ hx))
      rw [h3]
      simp
    rw [h1]
    show md5s.dropLast ++ [stripNl (md5s.getLast hne ++ ['\n'])] = md5s
    rw [h2, List.dropLast_append_getLast hne]

/-- C3 witness: the amended round-trip at the concrete entry
(SRRX, [aaaa, bbbb]). -/
theorem c3_roundtrip_trailing_newline_witness :
    parseCacheLine (writeCacheLine (("SRRX").toList)
        [("aaaa").toList, ("bbbb").toList]) =
      .ok (("SRRX").toList, [("aaaa").toList, ("bbbb").toList ++ ['\n']])
    ∧ [("aaaa").toList, ("bbbb").toList ++ ['\n']].map stripNl =
        [("aaaa").toList, ("bbbb").toList] :=
  c3_roundtrip_trailing_newline (("SRRX").toList)
    [("aaaa").toList, ("bbbb").toList] (by decide) (by decide) (by decide)

/-- C4 (counterexample): in a world where the esearch endpoint raises on its
first issuance but would succeed from the second on, run resolution fails
after a single search attempt (attempt counts: 1 search, 0 efetch) — the
search request is NOT retried, contradicting the claim that both round-trips
go through the Retry Executor. -/
theorem c4_counterexample :
    fetchRunsFromBioproject c4SearchTransientEnv = (.error .requestsException, 1, 0)
    ∧ c4SearchTransientEnv.search 1 =
        .success ⟨some [("7").toList], some ("W").toList⟩ :=
  ⟨rfl, rfl⟩

/-- C4 (amended): only the session-based efetch request goes through the
Retry Executor.  The esearch request is issued exactly once: a transport
error or a non-OK response on its first issuance aborts run resolution
immediately, whereas an efetch transport error on the first issuance is
retried and a second-issuance success completes run resolution with two
efetch attempts. -/
theorem c4_retry_only_on_fetch (env : Env) (r : SearchResp) (ids : List Str)
    (we : Str) (resp : EfetchResp) :
    (env.search 0 = .exn →
      fetchRunsFromBioproject env = (.error .requestsException, 1, 0))
    ∧ (env.search 0 = .httpFail →
      fetchRunsFromBioproject env = (.error .httpFailure, 1, 0))
    ∧ (env.search 0 = .success r → r.idList = some ids → r.webenv = some we →
        env.efetch 0 = .exn → env.efetch 1 = .success resp →
        resp.errorNode = false → efetchRows none resp.pkgs ≠ [] →
        fetchRunsFromBioproject env = (.ok (efetchRows none resp.pkgs), 1, 2)) := by
  refine ⟨?_, ?_, ?_⟩
  · intro h
    simp [fetchRunsFromBioproject, h]
  · intro h
    simp [fetchRunsFromBioproject, h]
  · intro hs hid hwe h0 h1 herr hrows
    have e0 : retryRequestCounted env.efetch =
        ((retryAux env.efetch 1 2).1, (retryAux env.efetch 1 2).2 + 1) :=
      retryAux_fail_step env.efetch 0 2 (fun v hv => by rw [h0] at hv; cases hv)
    have e1 : retryAux env.efetch 1 2 = (.ok resp, 1) :=
      retryAux_success_step env.efetch 1 1 resp h1
    have hq : retryRequestCounted env.efetch = (.ok resp, 2) := by rw [e0, e1]
    simp [fetchRunsFromBioproject, hs, hid, hwe, efetchAccessionFromIds, hq, herr, hrows]

/-- C4 witness: the amended behaviour at a concrete world with a transient
efetch failure: run resolution succeeds after 1 search and 2 efetch attempts. -/
theorem c4_retry_only_on_fetch_witness :
    fetchRunsFromBioproject c4FetchTransientEnv = (.ok [("SRR9").toList], 1, 2) :=
  (c4_retry_only_on_fetch c4FetchTransientEnv
      ⟨some [("7").toList], some ("W").toList⟩ [("7").toList] (("W").toList)
      ⟨false, [[("SRR9").toList]]⟩).2.2
    rfl rfl rfl rfl rfl rfl (by decide)

/-- C5 (counterexample): with two pairs where the first raises, the `main`
loop ends with the exception having processed only the first pair — the
sibling pair (PRJ2, dir2) is never validated, contradicting the claim that a
failure aborts only the failing pair. -/
theorem c5_counterexample :
    mainLoop c5Outcome
        [(("PRJ1").toList, ("dir1").toList), (("PRJ2").toList, ("dir2").toList)] =
      (.error .requestsException, [(("PRJ1").toList, ("dir1").toList)])
    ∧ (("PRJ2").toList, ("dir2").toList) ∉
        (mainLoop c5Outcome
          [(("PRJ1").toList, ("dir1").toList),
           (("PRJ2").toList, ("dir2").toList)]).2 :=
  ⟨rfl, by decide⟩

/-- C5 (amended): a failure on one (accession, directory) pair aborts the
whole invocation, not just that pair: the loop processes the pairs before the
failing one and the failing one itself, then propagates the exception, so
every later sibling pair goes unprocessed. -/
theorem c5_failure_aborts_rest {α : Type} (outcome : α → Except PyError Nat)
    (xs ys : List α) (p : α) (e : PyError)
    (hxs : ∀ q ∈ xs, ∃ n, outcome q = .ok n) (hp : outcome p = .error e) :
    mainLoop outcome (xs ++ p :: ys) = (.error e, xs ++ [p]) := by
  induction xs with
  | nil => simp [mainLoop, hp]
  | cons q xs ih =>
    obtain ⟨n, hn⟩ := hxs q (List.mem_cons_self q xs)
    have ih2 := ih (fun r hr => hxs r (List.mem_cons_of_mem _ hr))
    simp [mainLoop, hn, ih2]

/-- C5 witness: the amended behaviour at a concrete three-pair invocation
whose middle pair fails. -/
theorem c5_failure_aborts_rest_witness :
    mainLoop c5Outcome
        [(("PRJ0").toList, ("dir0").toList), (("PRJ1").toList, ("dir1").toList),
         (("PRJ9").toList, ("dir9").toList)] =
      (.error .requestsException,
       [(("PRJ0").toList, ("dir0").toList), (("PRJ1").toList, ("dir1").toList)]) :=
  c5_failure_aborts_rest c5Outcome
    [(("PRJ0").toList, ("dir0").toList)] [(("PRJ9").toList, ("dir9").toList)]
    ((("PRJ1").toList, ("dir1").toList)) .requestsException
    (fun q hq => by
      rw [List.mem_singleton] at hq
      subst hq
      exact ⟨0, rfl⟩)
    rfl

/-- C6 (confirmed): with the cache loaded, a run identifier that is a cache
key is never queried remotely by the catalog builder, and when every
requested identifier is cache-resident the loaded catalog is returned at once
with no remote checksum query at all. -/
theorem c6_cache_hits_skip_remote (env : Env) (lines : List Str)
    (dic : List (Str × List Str)) (fastqLis : List Str) (r : Str)
    (hfile : env.cacheFile = some lines) (hload : loadCacheLines lines = .ok dic) :
    (r ∈ dic.map Prod.fst → r ∉ (getMd5Catalog env fastqLis true).2)
    ∧ ((∀ s ∈ fastqLis, s ∈ dic.map Prod.fst) →
        getMd5Catalog env fastqLis true = (.ok dic, [])) := by
  have key : getMd5Catalog env fastqLis true =
      (if (needQueryList fastqLis (dic.map Prod.fst)).isEmpty then (.ok dic, [])
       else
        ((dropResLis (queryLoop env.ena dic []
            (needQueryList fastqLis (dic.map Prod.fst))).1),
         (queryLoop env.ena dic []
            (needQueryList fastqLis (dic.map Prod.fst))).2)) := by
    simp [getMd5Catalog, hfile, hload]
  constructor
  · intro hr
    rw [key]
    by_cases hq : (needQueryList fastqLis (dic.map Prod.fst)).isEmpty
    · simp [hq]
    · simp only [hq, if_false]
      intro hmem
      have h2 := queryLoop_performed_mem _ _ _ _ hmem
      simp only [needQueryList, List.mem_filter, decide_eq_true_eq] at h2
      exact h2.2 hr
  · intro hall
    have hnil : needQueryList fastqLis (dic.map Prod.fst) = [] := by
      rw [needQueryList, List.filter_eq_nil_iff]
      intro a ha
      simp only [decide_eq_true_eq, Decidable.not_not]
      exact hall a (List.mem_dedup.mp ha)
    rw [key, hnil]
    rfl

/-- C6 witness: with a cache file holding SRR1, requesting exactly [SRR1]
issues no remote query and returns the cached catalog unchanged. -/
theorem c6_cache_hits_skip_remote_witness :
    ("SRR1").toList ∉ (getMd5Catalog c6Env [("SRR1").toList] true).2
    ∧ getMd5Catalog c6Env [("SRR1").toList] true =
        (.ok [(("SRR1").toList, [("abc").toList, ("def").toList ++ ['\n']])], []) :=
  ⟨(c6_cache_hits_skip_remote c6Env [("SRR1\tabc;def\n").toList]
      [(("SRR1").toList, [("abc").toList, ("def").toList ++ ['\n']])]
      [("SRR1").toList] (("SRR1").toList) rfl rfl).1 (by decide),
   (c6_cache_hits_skip_remote c6Env [("SRR1\tabc;def\n").toList]
      [(("SRR1").toList, [("abc").toList, ("def").toList ++ ['\n']])]
      [("SRR1").toList] (("SRR1").toList) rfl rfl).2 (by decide)⟩

/-- C7 (confirmed): an operation that fails on every attempt (raises or
returns non-OK each time) makes `_retry_request` raise the retries-exhausted
exception after exactly 3 attempts of the operation, never more. -/
theorem c7_retry_exhausted_after_three {α : Type} (f : Nat → CallOutcome α)
    (h : ∀ i, i < 3 → ∀ v, f i ≠ .success v) :
    retryRequestCounted f = (.error .retriesExhausted, 3) := by
  have e0 : retryRequestCounted f = ((retryAux f 1 2).1, (retryAux f 1 2).2 + 1) :=
    retryAux_fail_step f 0 2 (h 0 (by norm_num))
  have e1 : retryAux f 1 2 = ((retryAux f 2 1).1, (retryAux f 2 1).2 + 1) :=
    retryAux_fail_step f 1 1 (h 1 (by norm_num))
  have e2 : retryAux f 2 1 = ((retryAux f 3 0).1, (retryAux f 3 0).2 + 1) :=
    retryAux_fail_step f 2 0 (h 2 (by norm_num))
  have e3 : retryAux f 3 0 = ((.error .retriesExhausted : Except PyError α), 0) := rfl
  rw [e0, e1, e2, e3]

/-- C7 witness: an always-raising operation exhausts the retries with exactly
3 attempts. -/
theorem c7_retry_exhausted_after_three_witness :
    retryRequestCounted (fun _ => (CallOutcome.exn : CallOutcome Nat)) =
      (.error .retriesExhausted, 3) :=
  c7_retry_exhausted_after_three (fun _ => CallOutcome.exn)
    (fun _ _ v hv => by cases hv)

/-- C8 (counterexample): the filename `a_1_2.fq` does not fit the
`<baseAccession>_<fileIndex>.<ext>` convention (the text between the first
underscore and the first period is `1_2`, not an integer), yet `validate`
does not fail the run with an error: it silently reinterprets the file as
index 1 of run `a` and reports success when the checksums agree. -/
theorem c8_counterexample :
    fitsConventionSpec (("a_1_2.fq").toList) = false
    ∧ validateFiles [(("a").toList, [("h").toList])]
        [(("a_1_2.fq").toList, ("h").toList)] = .ok 0 :=
  ⟨rfl, rfl⟩

/-- C8 (amended): a filename whose part before the first period holds no
underscore (e.g. `notes.txt`) makes `validate` raise `IndexError`, and one
whose segment between the first and second underscore-or-period is not an
integer raises `ValueError` — in both cases the whole run fails at that file
rather than skipping it.  (A non-conforming name whose extra underscore
segments follow a valid integer segment is instead silently reinterpreted,
per the counterexample.) -/
theorem c8_unparseable_name_raises (dic : List (Str × List Str)) (name actual : Str)
    (rest : List (Str × Str)) :
    (pyIndex (splitOnChar '_' ((splitOnChar '.' name).headI)) 1 = none →
      validateFiles dic ((name, actual) :: rest) = .error .indexError)
    ∧ (∀ s2, pyIndex (splitOnChar '_' ((splitOnChar '.' name).headI)) 1 = some s2 →
        pyToInt s2 = none →
        validateFiles dic ((name, actual) :: rest) = .error .valueError) := by
  constructor
  · intro h
    simp [validateFiles, validateFile, parseFastqName, h]
  · intro s2 h1 h2
    simp [validateFiles, validateFile, parseFastqName, h1, h2]

/-- C8 witness: `notes.txt` raises `IndexError` and `a_1x.fq` raises
`ValueError`, each aborting the run. -/
theorem c8_unparseable_name_raises_witness :
    validateFiles [] [(("notes.txt").toList, ("x").toList)] = .error .indexError
    ∧ validateFiles [] [(("a_1x.fq").toList, ("x").toList)] = .error .valueError :=
  ⟨(c8_unparseable_name_raises [] (("notes.txt").toList) (("x").toList) []).1
      (by decide),
   (c8_unparseable_name_raises [] (("a_1x.fq").toList) (("x").toList) []).2
      (("1x").toList) (by decide) (by decide)⟩

/-- C9 (confirmed): with `cache = true` — the Python default, and the only
mode `validate` reaches — a missing cache file makes the catalog builder
raise `FileNotFoundError` before any remote checksum query, instead of
treating the cache as empty; so a first-ever invocation fails unless the
cache file already exists. -/
theorem c9_missing_cache_file_raises (search : Nat → CallOutcome SearchResp)
    (efetch : Nat → CallOutcome EfetchResp) (ena : Str → Str)
    (fastqLis : List Str) :
    getMd5Catalog ⟨search, efetch, none, ena⟩ fastqLis true =
      (.error .fileNotFoundError, []) :=
  rfl

/-- C10 (confirmed): `main` pairs accessions with directories positionally via
`zip`, truncating to the shorter list: the pair list has length
`min |accessions| |directories|`, its `i`-th pair is the `i`-th accession with
the `i`-th directory, and when every formed pair validates cleanly the loop
processes exactly those pairs and returns normally — the surplus entries of
the longer list are dropped without any error. -/
theorem c10_zip_truncation (accs dirs : List Str)
    (outcome : Str × Str → Except PyError Nat) (i : Nat)
    (ha : i < accs.length) (hd : i < dirs.length)
    (h : ∀ p ∈ mainPairs accs dirs, ∃ n, outcome p = .ok n) :
    (mainPairs accs dirs).length = min accs.length dirs.length
    ∧ (mainPairs accs dirs)[i]? = some (accs[i], dirs[i])
    ∧ (mainLoop outcome (mainPairs accs dirs)).2 = mainPairs accs dirs
    ∧ (∃ ns, (mainLoop outcome (mainPairs accs dirs)).1 = .ok ns) := by
  obtain ⟨h2, hns⟩ := mainLoop_all_ok outcome (mainPairs accs dirs) h
  refine ⟨List.length_zip accs dirs, ?_, h2, hns⟩
  rw [mainPairs, zip_getElem?, List.getElem?_eq_getElem ha, List.getElem?_eq_getElem hd]
  rfl

/-- C10 witness: two accessions against one directory form the single pair
(PRJ1, dir1); PRJ2 is dropped and the loop returns normally. -/
theorem c10_zip_truncation_witness :
    (mainPairs [("PRJ1").toList, ("PRJ2").toList] [("dir1").toList]).length =
      min 2 1
    ∧ (mainPairs [("PRJ1").toList, ("PRJ2").toList] [("dir1").toList])[0]? =
        some (("PRJ1").toList, ("dir1").toList)
    ∧ (mainLoop c10Outcome
        (mainPairs [("PRJ1").toList, ("PRJ2").toList] [("dir1").toList])).2 =
        mainPairs [("PRJ1").toList, ("PRJ2").toList] [("dir1").toList]
    ∧ (∃ ns, (mainLoop c10Outcome
        (mainPairs [("PRJ1").toList, ("PRJ2").toList] [("dir1").toList])).1 =
        .ok ns) :=
  c10_zip_truncation [("PRJ1").toList, ("PRJ2").toList] [("dir1").toList]
    c10Outcome 0 (by decide) (by decide) (fun p _ => ⟨0, rfl⟩)

end Budding
